import Mathlib

/-!
Verification development for the trainer-scout feedback pipeline
(`task1_trainer_scout.py`) and its downstream outreach-draft generator
(`task2_outreach.py`).

The Python source is shallowly embedded here:
* a cleaned feedback table becomes a `List Record` (one `Record` per
  completed survey row, with the parsed date, the numeric rating cells of
  the fixed rating columns, and the raw cells of the fixed free-text
  quote columns);
* floating-point rating arithmetic is modelled exactly over `ℚ`;
  the Python `round(x, 2)` (round half to even) becomes `round2`;
* `DataFrame.sort_values` (an unstable quicksort in the source; only
  sortedness and the permutation property are relied upon, and the spec
  itself declares tie order unspecified) becomes `List.insertionSort`;
  pandas places missing keys (`NaT` / `NaN`) last, which the embedded
  order relations reproduce;
* `sys.exit(1)` on an empty score table becomes the `Except.error`
  branch of `compute_trainer_scores`;
* Python text values are modelled as `List Char` (one entry per code
  point, matching Python `len`/slicing semantics).
-/

/-- Round a rational to the nearest integer, ties to even: the rounding
mode of Python `round` and of `numpy`/pandas `.round`. -/
def roundHalfEven (q : ℚ) : ℤ :=
  if q - ⌊q⌋ < 1 / 2 then ⌊q⌋
  else if (1 : ℚ) / 2 < q - ⌊q⌋ then ⌊q⌋ + 1
  else if ⌊q⌋ % 2 = 0 then ⌊q⌋ else ⌊q⌋ + 1

/-- Python `round(x, 2)` / pandas `.round(2)` on the exact rational model:
round half to even at two decimal places. -/
def round2 (q : ℚ) : ℚ := (roundHalfEven (q * 100) : ℚ) / 100

/-- A cell of one of the free-text quote columns, as pandas sees it after
CSV load: missing (`NaN`), a string, or a non-string scalar (a number). -/
inductive Cell where
  | null : Cell
  | str (s : List Char) : Cell
  | num (q : ℚ) : Cell
deriving DecidableEq

/-- One completed survey response after `load_and_clean`: the stable
`row_id`, the `Trainer` value, the parsed `date` (`none` models `NaT`),
the numeric rating cells of the `RATING_COLS` columns in column order
(`none` models a missing or unparseable rating), and the raw cells of the
`QUOTE_COLS` columns in column order. -/
structure Record where
  row_id : String
  trainer : String
  date : Option ℤ
  ratings : List (Option ℚ)
  quoteCells : List Cell
deriving DecidableEq

/-- The `MIN_RESPONSES` constant of the source. -/
def MIN_RESPONSES : ℕ := 3

/-- The `TOP_N` constant of the source. -/
def TOP_N : ℕ := 2

/-- The number of rating columns in `RATING_COLS`. -/
def RATING_COLS_COUNT : ℕ := 6

/-- The values of rating column `c` over a group of records, in row
order (`group[col]` for one column of `group[RATING_COLS]`). -/
def colVals (g : List Record) (c : ℕ) : List (Option ℚ) :=
  g.map (fun r => r.ratings.getD c none)

/-- pandas `Series.mean`: the mean of the present values, skipping
missing ones; `none` (NaN) when no value is present. -/
def colMean (xs : List (Option ℚ)) : Option ℚ :=
  let v := xs.filterMap id
  if v.length = 0 then none else some (v.sum / (v.length : ℚ))

/-- Model of `group[cols].mean().mean()`: the mean of the per-column means of the
listed rating columns, where a column with no observation yields NaN and
is skipped by the outer mean; `none` when every column is empty. -/
def meanOfColMeansOn (cols : List ℕ) (g : List Record) : Option ℚ :=
  let ms := cols.filterMap (fun c => colMean (colVals g c))
  if ms.length = 0 then none else some (ms.sum / (ms.length : ℚ))

/-- Model of `group[RATING_COLS].mean().mean()`: the overall rating mean of a
trainer group (`overall_score` before rounding). -/
def overallMeanOf (g : List Record) : Option ℚ :=
  meanOfColMeansOn (List.range RATING_COLS_COUNT) g

/-- The ascending order on parsed dates used by
`group.sort_values("date")`: `NaT` (`none`) sorts last. -/
def optDateLE : Option ℤ → Option ℤ → Prop
  | some x, some y => x ≤ y
  | some _, none => True
  | none, some _ => False
  | none, none => True

instance : DecidableRel optDateLE := fun a b =>
  match a, b with
  | some x, some y => inferInstanceAs (Decidable (x ≤ y))
  | some _, none => inferInstanceAs (Decidable True)
  | none, some _ => inferInstanceAs (Decidable False)
  | none, none => inferInstanceAs (Decidable True)

/-- Record order for the chronological sort of a trainer group. -/
def recDateLE (r s : Record) : Prop := optDateLE r.date s.date

instance : DecidableRel recDateLE := fun r s =>
  inferInstanceAs (Decidable (optDateLE r.date s.date))

/-- Model of `group_sorted = group.sort_values("date")`. -/
def sortByDate (g : List Record) : List Record :=
  g.insertionSort recDateLE

/-- The raw (un-rounded) `early_scores` local of
`compute_trainer_scores`: the mean of per-column means over the first
`mid` chronologically sorted records, or the overall mean when
`mid = 0`. -/
def earlyMeanOf (g : List Record) : Option ℚ :=
  let gs := sortByDate g
  let mid := gs.length / 2
  if 0 < mid then meanOfColMeansOn (List.range RATING_COLS_COUNT) (gs.take mid)
  else overallMeanOf g

/-- The raw (un-rounded) `late_scores` local: the mean of per-column
means over the records from position `mid` on, or the overall mean when
`mid = 0`. -/
def lateMeanOf (g : List Record) : Option ℚ :=
  let gs := sortByDate g
  let mid := gs.length / 2
  if 0 < mid then meanOfColMeansOn (List.range RATING_COLS_COUNT) (gs.drop mid)
  else overallMeanOf g

/-- The raw `improvement` local: late mean minus early mean (NaN when
either half has no observation), and exactly `0.0` when `mid = 0`. -/
def improvementOf (g : List Record) : Option ℚ :=
  let gs := sortByDate g
  let mid := gs.length / 2
  if 0 < mid then
    Option.map₂ (fun l e => l - e)
      (meanOfColMeansOn (List.range RATING_COLS_COUNT) (gs.drop mid))
      (meanOfColMeansOn (List.range RATING_COLS_COUNT) (gs.take mid))
  else some 0

/-- One row of `scores_df`: the dict appended per qualifying trainer,
plus the `trainer_score` column added afterwards (`none` until then;
`none` also models a NaN entry, which pandas sorts last). -/
structure TrainerRow where
  trainer : String
  n_responses : ℕ
  overall_score : Option ℚ
  early_avg : Option ℚ
  late_avg : Option ℚ
  improvement : Option ℚ
  raw_combined : Option ℚ
  trainer_score : Option ℚ
deriving DecidableEq

/-- The per-trainer dict built inside the `groupby` loop of
`compute_trainer_scores` (before the `trainer_score` column exists). -/
def mkRow (t : String) (g : List Record) : TrainerRow :=
  { trainer := t
    n_responses := g.length
    overall_score := Option.map round2 (overallMeanOf g)
    early_avg := Option.map round2 (earlyMeanOf g)
    late_avg := Option.map round2 (lateMeanOf g)
    improvement := Option.map round2 (improvementOf g)
    raw_combined := overallMeanOf g
    trainer_score := none }

/-- Model of `scores_df["trainer_score"] = (0.6*overall_score + 0.4*late_avg).round(2)`. -/
def addTrainerScore (r : TrainerRow) : TrainerRow :=
  { r with
    trainer_score :=
      Option.map round2
        (Option.map₂ (fun a b => 6 / 10 * a + 4 / 10 * b)
          r.overall_score r.late_avg) }

/-- The descending order on the `trainer_score` column used by
`sort_values("trainer_score", ascending=False)`: larger scores first,
NaN (`none`) last. -/
def scoreDescLE : Option ℚ → Option ℚ → Prop
  | some x, some y => y ≤ x
  | some _, none => True
  | none, some _ => False
  | none, none => True

instance : DecidableRel scoreDescLE := fun a b =>
  match a, b with
  | some x, some y => inferInstanceAs (Decidable (y ≤ x))
  | some _, none => inferInstanceAs (Decidable True)
  | none, some _ => inferInstanceAs (Decidable False)
  | none, none => inferInstanceAs (Decidable True)

/-- Row order for the final leaderboard sort. -/
def rowScoreDescLE (a b : TrainerRow) : Prop :=
  scoreDescLE a.trainer_score b.trainer_score

instance : DecidableRel rowScoreDescLE := fun a b =>
  inferInstanceAs (Decidable (scoreDescLE a.trainer_score b.trainer_score))

/-- Model of `scores_df.sort_values("trainer_score", ascending=False)`. -/
def sortByScoreDesc (l : List TrainerRow) : List TrainerRow :=
  l.insertionSort rowScoreDescLE

/-- Model of `df[df["Trainer"] == trainer]`: the records of one trainer, in
input order. -/
def groupOf (df : List Record) (t : String) : List Record :=
  df.filter (fun r => r.trainer == t)

/-- The distinct trainer keys of `df.groupby("Trainer")` (the groupby
enumeration order is irrelevant: the rows are re-sorted by score, and
every claim below is order-insensitive over the groups). -/
def trainerKeys (df : List Record) : List String :=
  (df.map (fun r => r.trainer)).dedup

/-- The body of the `groupby` loop for one trainer: skip the group when
it has fewer than `MIN_RESPONSES` records, otherwise build its row. -/
def groupStep (df : List Record) (t : String) : Option TrainerRow :=
  let g := groupOf df t
  if g.length < MIN_RESPONSES then none else some (mkRow t g)

/-- The error message printed when no trainer qualifies. -/
def NO_TRAINERS_MSG : String :=
  "No trainers met the minimum response threshold"

/-- Model of `compute_trainer_scores`: group by trainer, drop small groups, build
the score rows, abort (`sys.exit(1)`, modelled as `Except.error`) when
none qualifies, add the composite `trainer_score` column, and sort
descending by it. -/
def compute_trainer_scores (df : List Record) :
    Except String (List TrainerRow) :=
  let results := (trainerKeys df).filterMap (groupStep df)
  if results.length = 0 then Except.error NO_TRAINERS_MSG
  else Except.ok (sortByScoreDesc (results.map addTrainerScore))

/-- Python `str.strip()` on the whitespace actually occurring in the
data: drop leading and trailing whitespace characters. -/
def pyStrip (s : List Char) : List Char :=
  ((s.dropWhile Char.isWhitespace).reverse.dropWhile Char.isWhitespace).reverse

/-- Python `str.replace("\n", " ")`: a one-character-for-one-character
substitution, so the length is preserved. -/
def replaceNewlines (s : List Char) : List Char :=
  s.map (fun c => if c = '\n' then ' ' else c)

/-- Python `col.split("_")[0]`: the prefix of the column label before
the first underscore (the whole label when none occurs). -/
def headSegment (s : List Char) : List Char :=
  s.takeWhile (fun c => c ≠ '_')

/-- The three `QUOTE_COLS` column labels of the source, in order. -/
def QUOTE_COLS : List (List Char) :=
  [("3.12_What did you like most about their training style?*").toList,
   ("3.13_Could you please share a highlight from the training? What stood out to you as particularly enjoyable or beneficial?*").toList,
   ("2.6_Did the trainer establish good rapport with the learners? Did they make you feel at ease to ask question, interact, and engage with the training? Give details.*").toList]

/-- One candidate dict built by `extract_best_quotes`. -/
structure Quote where
  row_id : String
  quote : List Char
  source_column : List Char
  length : ℕ
deriving DecidableEq

/-- The candidate test and dict of the inner loop of
`extract_best_quotes`: a cell passes `pd.notna(val) and
isinstance(val, str) and len(val.strip()) > 20` exactly when it is a
string whose stripped length exceeds 20; missing and non-string cells
are skipped. -/
def candidateOf (r : Record) (p : List Char × Cell) : Option Quote :=
  match p.2 with
  | Cell.str s =>
      if 20 < (pyStrip s).length then
        some { row_id := r.row_id
               quote := replaceNewlines (pyStrip s)
               source_column := headSegment p.1
               length := (pyStrip s).length }
      else none
  | _ => none

/-- All candidate quotes of one trainer, rows in input order, quote
columns in `QUOTE_COLS` order within a row. -/
def quoteCandidates (df : List Record) (trainer : String) : List Quote :=
  (groupOf df trainer).flatMap
    (fun r => (QUOTE_COLS.zip r.quoteCells).filterMap (candidateOf r))

/-- The descending-length order of
`candidates.sort(key=lambda x: x["length"], reverse=True)`. -/
def quoteLenDescLE (a b : Quote) : Prop := b.length ≤ a.length

instance : DecidableRel quoteLenDescLE := fun a b =>
  inferInstanceAs (Decidable (b.length ≤ a.length))

/-- Model of `extract_best_quotes`: collect the candidates of the trainer, sort
them by descending length, and keep the first `n_quotes`. -/
def extract_best_quotes (df : List Record) (trainer : String)
    (n_quotes : ℕ) : List Quote :=
  ((quoteCandidates df trainer).insertionSort quoteLenDescLE).take n_quotes

/-- Python `str.title()` on the separator-joined name: uppercase a
letter that follows a non-letter, lowercase a letter that follows a
letter (the `Bool` argument records whether the previous character was
a letter). -/
def pyTitleAux : Bool → List Char → List Char
  | _, [] => []
  | prevAlpha, c :: cs =>
      if c.isAlpha then
        (if prevAlpha then c.toLower else c.toUpper) :: pyTitleAux true cs
      else c :: pyTitleAux false cs

/-- Python `str.title()`. -/
def pyTitle (s : List Char) : List Char := pyTitleAux false s

/-- Model of `trainer["trainer_name"].split("@")[0].replace(".", " ").title()`:
the display name derived from the trainer identifier. -/
def displayName (trainer_name : List Char) : List Char :=
  pyTitle ((trainer_name.takeWhile (fun c => c ≠ '@')).map
    (fun c => if c = '.' then ' ' else c))

/-- One evidence quote of the `results.json` input of the outreach
stage (`{row_id, quote}`). -/
structure EvidenceQuote where
  row_id : String
  quote : List Char
deriving DecidableEq

/-- One element of the `results.json` list consumed by
`generate_outreach_draft` (the `generated_at` wall-clock field of the
produced draft is outside the model; every other field is carried). -/
structure RankedResult where
  trainer_name : List Char
  n_responses : ℕ
  trainer_score : ℚ
  overall_avg : ℚ
  improvement : ℚ
  evidence_quotes : List EvidenceQuote
  case_study_angle : List Char
deriving DecidableEq

/-- The quote selected by `generate_outreach_draft`: the first evidence
quote when one exists, the literal `"N/A"` otherwise. -/
def selectedQuote (t : RankedResult) : List Char :=
  match t.evidence_quotes with
  | [] => ("N/A").toList
  | q :: _ => q.quote

/-- The truncation marker appended to over-long quotes. -/
def ellipsisMarker : List Char := ("...").toList

/-- Model of `if len(quote) > 200: quote = quote[:197] + "..."`. -/
def truncatedQuote (t : RankedResult) : List Char :=
  let q := selectedQuote t
  if 200 < q.length then q.take 197 ++ ellipsisMarker else q

/-- Decimal rendering of the two-decimal nonnegative rationals the
pipeline produces, as a Python f-string renders the corresponding float
(for example 7.5, 8.0, 7.05). -/
def showRat2 (q : ℚ) : List Char :=
  let n : ℤ := roundHalfEven (q * 100)
  let ip : ℤ := n / 100
  let fr : ℤ := n % 100
  if fr = 0 then (toString ip).toList ++ (".0").toList
  else if fr % 10 = 0 then
    (toString ip).toList ++ (".").toList ++ (toString (fr / 10)).toList
  else if fr < 10 then
    (toString ip).toList ++ (".0").toList ++ (toString fr).toList
  else (toString ip).toList ++ (".").toList ++ (toString fr).toList

/-- The fixed subject line of every draft. -/
def draftSubject : List Char :=
  ("Your learners love your training — would you share your story?").toList

/-- The part of the f-string body before the embedded quote. -/
def bodyPre (t : RankedResult) : List Char :=
  ("Hi ").toList ++ displayName t.trainer_name ++
  (",\n\nI hope this message finds you well!\n\nWe\u0027ve been reviewing learner feedback across our trainer network, and your name stood out. Your training sessions have received consistently strong feedback, with an overall rating of ").toList ++
  showRat2 t.overall_avg ++ ("/10 across ").toList ++
  (toString t.n_responses).toList ++
  (" responses.\n\nHere\u0027s what one of your learners said:\n\n  \"").toList

/-- The part of the f-string body after the embedded quote. -/
def bodyPost : List Char :=
  ("\"\n\nWe\u0027d love to feature your journey in a short case study to inspire other trainers in our network. This would involve either:\n\n  • A short testimonial quote (2–3 sentences, we can draft it for your approval), or\n  • A 15–20 minute chat (or written Q&A) for a fuller case study\n\nWould you be open to either of these? Happy to work around your schedule.\n\nThanks for the great work you do!\n\nBest regards,\nThe Camphire Team").toList

/-- The outreach draft dict (minus the wall-clock `generated_at`). -/
structure OutreachDraft where
  trainer_name : List Char
  trainer_display_name : List Char
  subject : List Char
  body : List Char
  trainer_score : ℚ
  n_responses : ℕ
  case_study_angle : List Char
  status : List Char
deriving DecidableEq

/-- Model of `generate_outreach_draft`: derive the display name, select and
possibly truncate the quote, and render the fixed-template body with the
quote embedded between `bodyPre` and `bodyPost`. -/
def generate_outreach_draft (t : RankedResult) : OutreachDraft :=
  { trainer_name := t.trainer_name
    trainer_display_name := displayName t.trainer_name
    subject := draftSubject
    body := bodyPre t ++ truncatedQuote t ++ bodyPost
    trainer_score := t.trainer_score
    n_responses := t.n_responses
    case_study_angle := t.case_study_angle
    status := ("draft").toList }

/-- Every row of the ranked output comes from the `groupby` loop: it is
the scored row of some trainer whose group meets the minimum-response
threshold. -/
theorem mem_scores_ok {df : List Record} {rows : List TrainerRow}
    (h : compute_trainer_scores df = Except.ok rows) {r : TrainerRow}
    (hr : r ∈ rows) :
    ∃ t, MIN_RESPONSES ≤ (groupOf df t).length ∧
      r = addTrainerScore (mkRow t (groupOf df t)) := by
  simp only [compute_trainer_scores] at h
  split at h
  · exact absurd h (by simp)
  · rw [Except.ok.injEq] at h
    subst h
    rw [sortByScoreDesc, List.mem_insertionSort, List.mem_map] at hr
    obtain ⟨r0, hr0, rfl⟩ := hr
    rw [List.mem_filterMap] at hr0
    obtain ⟨t, -, hstep⟩ := hr0
    simp only [groupStep] at hstep
    split at hstep
    · exact absurd hstep (by simp)
    · rw [Option.some.injEq] at hstep
      subst hstep
      exact ⟨t, Nat.le_of_not_lt (by assumption), rfl⟩

/-- Claim C1: the composite score of every ranked trainer is
`round2 (0.6 * round2 overall_mean + 0.4 * round2 late_mean)`, where
the overall mean and the late-half mean are recomputed from the input
records of that trainer: both means are rounded to 2 decimals before the
0.6/0.4 combination, and the result is rounded to 2 decimals. -/
theorem trainer_score_eq_weighted_rounded_means {df : List Record}
    {rows : List TrainerRow}
    (h : compute_trainer_scores df = Except.ok rows) :
    ∀ r ∈ rows, r.trainer_score =
      Option.map round2
        (Option.map₂ (fun a b => 6 / 10 * a + 4 / 10 * b)
          (Option.map round2 (overallMeanOf (groupOf df r.trainer)))
          (Option.map round2 (lateMeanOf (groupOf df r.trainer)))) := by
  intro r hr
  obtain ⟨t, -, rfl⟩ := mem_scores_ok h hr
  rfl

/-- Claim C3: no trainer whose completed-response count is below
`MIN_RESPONSES` appears in the ranked output: the trainer of every
ranked row has a group of at least `MIN_RESPONSES` records in the input,
and the `n_responses` of the row is exactly the size of that group. -/
theorem ranked_trainers_meet_threshold {df : List Record}
    {rows : List TrainerRow}
    (h : compute_trainer_scores df = Except.ok rows) :
    ∀ r ∈ rows, MIN_RESPONSES ≤ (groupOf df r.trainer).length ∧
      r.n_responses = (groupOf df r.trainer).length := by
  intro r hr
  obtain ⟨t, hn, rfl⟩ := mem_scores_ok h hr
  exact ⟨hn, rfl⟩

instance : IsTotal TrainerRow rowScoreDescLE :=
  ⟨fun a b => by
    unfold rowScoreDescLE
    cases a.trainer_score with
    | none =>
        cases b.trainer_score with
        | none => exact Or.inl trivial
        | some y => exact Or.inr trivial
    | some x =>
        cases b.trainer_score with
        | none => exact Or.inl trivial
        | some y => exact (le_total y x).imp id id⟩

instance : IsTrans TrainerRow rowScoreDescLE :=
  ⟨fun a b c => by
    unfold rowScoreDescLE
    cases a.trainer_score <;> cases b.trainer_score <;>
      cases c.trainer_score <;> intro hab hbc <;>
      first
        | trivial
        | exact hab.elim
        | exact hbc.elim
        | exact le_trans hbc hab⟩

/-- Claim C4: the ranked output is sorted non-increasing by composite
score: for every pair of entries, the `trainer_score` of the earlier
one is at least that of the later one (`rowScoreDescLE`, which on two numeric scores
is exactly `later ≤ earlier`, and places NaN scores last as pandas
does). -/
theorem ranking_sorted_descending {df : List Record}
    {rows : List TrainerRow}
    (h : compute_trainer_scores df = Except.ok rows) :
    rows.Pairwise rowScoreDescLE := by
  simp only [compute_trainer_scores] at h
  split at h
  · exact absurd h (by simp)
  · rw [Except.ok.injEq] at h
    subst h
    exact List.sorted_insertionSort rowScoreDescLE _

/-- Claim C7: when no trainer meets the minimum-response threshold the
scoring stage terminates fatally (the `sys.exit(1)` branch, modelled as
`Except.error`) instead of returning an empty ranking. -/
theorem no_qualifying_trainer_is_fatal {df : List Record}
    (h : ∀ t ∈ trainerKeys df, (groupOf df t).length < MIN_RESPONSES) :
    compute_trainer_scores df = Except.error NO_TRAINERS_MSG := by
  have hnil : (trainerKeys df).filterMap (groupStep df) = [] := by
    rw [List.filterMap_eq_nil_iff]
    intro t ht
    unfold groupStep
    rw [if_pos (h t ht)]
  simp [compute_trainer_scores, hnil]

/-- Claim C8: a rating column with no numeric observation at all over a
record subset is excluded entirely from the mean of per-column means:
erasing such a column from the column list leaves the mean unchanged, so
every trainer (and each early/late half) is averaged over exactly the
columns that have at least one observation there. -/
theorem unobserved_column_excluded_from_mean {g : List Record} {c : ℕ}
    (cols : List ℕ) (h : ∀ r ∈ g, r.ratings.getD c none = none) :
    meanOfColMeansOn cols g = meanOfColMeansOn (cols.erase c) g := by
  have hc : colMean (colVals g c) = none := by
    unfold colMean colVals
    have hnil : (g.map (fun r => r.ratings.getD c none)).filterMap id = [] := by
      rw [List.filterMap_eq_nil_iff]
      intro a ha
      rw [List.mem_map] at ha
      obtain ⟨r, hr, rfl⟩ := ha
      exact h r hr
    simp only [hnil]
    rfl
  have key : cols.filterMap (fun d => colMean (colVals g d)) =
      (cols.erase c).filterMap (fun d => colMean (colVals g d)) := by
    induction cols with
    | nil => rfl
    | cons a l ih =>
        rw [List.erase_cons]
        by_cases hac : a = c
        · subst hac
          simp [List.filterMap_cons, hc]
        · rw [if_neg (by simpa using hac)]
          rw [List.filterMap_cons, List.filterMap_cons, ih]
  unfold meanOfColMeansOn
  rw [key]

/-- First (chronologically) record of the claim C2 example dataset. -/
def rB1 : Record :=
  { row_id := "ROW-001", trainer := "B", date := some 1,
    ratings := [some 6], quoteCells := [] }

/-- Second record of the claim C2 example dataset. -/
def rB2 : Record :=
  { row_id := "ROW-002", trainer := "B", date := some 2,
    ratings := [some 6], quoteCells := [] }

/-- Third record of the claim C2 example dataset. -/
def rB3 : Record :=
  { row_id := "ROW-003", trainer := "B", date := some 3,
    ratings := [some 9], quoteCells := [] }

/-- Fourth record of the claim C2 example dataset. -/
def rB4 : Record :=
  { row_id := "ROW-004", trainer := "B", date := some 4,
    ratings := [some 9], quoteCells := [] }

/-- The end-to-end example dataset of claim C2: trainer "B" with exactly
4 completed responses, the 2 chronologically earliest with rating-field
mean 6.0 and the 2 latest with rating-field mean 9.0 (the populated
rating column carries the value; the other five columns have no
observation and are skipped by the mean of per-column means). -/
def dfB : List Record := [rB1, rB2, rB3, rB4]

/-- The score row the pipeline computes for trainer "B" of `dfB`. -/
def rowB : TrainerRow :=
  { trainer := "B", n_responses := 4, overall_score := some (15 / 2),
    early_avg := some 6, late_avg := some 9, improvement := some 3,
    raw_combined := some (15 / 2), trainer_score := some (81 / 10) }

lemma range_ratingCols : List.range RATING_COLS_COUNT = [0, 1, 2, 3, 4, 5] := by
  decide

lemma trainerKeys_dfB : trainerKeys dfB = ["B"] := by decide

lemma groupOf_dfB : groupOf dfB "B" = dfB := by decide

lemma sortByDate_dfB : sortByDate dfB = dfB := by decide

lemma len_dfB : dfB.length = 4 := by decide

lemma take_dfB : dfB.take 2 = [rB1, rB2] := by decide

lemma drop_dfB : dfB.drop 2 = [rB3, rB4] := by decide

lemma overall_dfB : overallMeanOf dfB = some (15 / 2) := by
  norm_num [overallMeanOf, meanOfColMeansOn, colMean, colVals,
    range_ratingCols, dfB, rB1, rB2, rB3, rB4, List.filterMap_cons,
    List.cons_ne_nil]

lemma early_dfB : earlyMeanOf dfB = some 6 := by
  simp only [earlyMeanOf, sortByDate_dfB, len_dfB]
  norm_num [take_dfB, meanOfColMeansOn, colMean, colVals,
    range_ratingCols, rB1, rB2, List.filterMap_cons, List.cons_ne_nil]

lemma late_dfB : lateMeanOf dfB = some 9 := by
  simp only [lateMeanOf, sortByDate_dfB, len_dfB]
  norm_num [drop_dfB, meanOfColMeansOn, colMean, colVals,
    range_ratingCols, rB3, rB4, List.filterMap_cons, List.cons_ne_nil]

lemma impr_dfB : improvementOf dfB = some 3 := by
  simp only [improvementOf, sortByDate_dfB, len_dfB]
  norm_num [take_dfB, drop_dfB, meanOfColMeansOn, colMean, colVals,
    range_ratingCols, rB1, rB2, rB3, rB4, List.filterMap_cons,
    List.cons_ne_nil, Option.map₂]

lemma mkRow_dfB : addTrainerScore (mkRow "B" dfB) = rowB := by
  rw [mkRow, overall_dfB, early_dfB, late_dfB, impr_dfB, addTrainerScore]
  norm_num [rowB, round2, roundHalfEven, Option.map₂, len_dfB]

lemma dfB_eval : compute_trainer_scores dfB = Except.ok [rowB] := by
  have hstep : groupStep dfB "B" = some (mkRow "B" dfB) := by
    simp [groupStep, groupOf_dfB, len_dfB, MIN_RESPONSES]
  have hsteps : (trainerKeys dfB).filterMap (groupStep dfB) =
      [mkRow "B" dfB] := by
    rw [trainerKeys_dfB]
    simp [List.filterMap_cons, hstep]
  simp only [compute_trainer_scores, hsteps, List.length_cons,
    List.length_nil, List.map_cons, List.map_nil, mkRow_dfB]
  norm_num [sortByScoreDesc, List.insertionSort]

/-- Claim C2 (counterexample): on the example dataset of the claim itself —
trainer "B" with 4 completed responses whose first two average 6.0 and
last two average 9.0 — the pipeline computes a composite score of 8.1,
not the 9.0 the claim asserts. -/
theorem example_trainerB_score_not_nine :
    compute_trainer_scores dfB = Except.ok [rowB] ∧
      rowB.trainer_score ≠ some 9 := by
  refine ⟨dfB_eval, ?_⟩
  norm_num [rowB]

/-- Claim C2 (amended): on the example dataset of trainer "B" the
computed values are `early_avg = 6.0`, `late_avg = 9.0`,
`improvement = 3.0`, `overall_avg = 7.5`, and
`trainer_score = round2 (0.6 * 7.5 + 0.4 * 9.0) = 8.1`. -/
theorem example_trainerB_eval :
    compute_trainer_scores dfB = Except.ok [rowB] ∧
      rowB.early_avg = some 6 ∧ rowB.late_avg = some 9 ∧
      rowB.improvement = some 3 ∧ rowB.overall_score = some (15 / 2) ∧
      rowB.trainer_score = some (round2 (6 / 10 * (15 / 2) + 4 / 10 * 9)) ∧
      round2 (6 / 10 * (15 / 2) + 4 / 10 * 9) = 81 / 10 := by
  refine ⟨dfB_eval, rfl, rfl, rfl, rfl, ?_, ?_⟩ <;>
    norm_num [rowB, round2, roundHalfEven]

/-- Witness for claim C1 at the concrete dataset `dfB`. -/
theorem trainer_score_eq_weighted_rounded_means_witness :
    compute_trainer_scores dfB = Except.ok [rowB] ∧
      rowB.trainer_score =
        Option.map round2
          (Option.map₂ (fun a b => 6 / 10 * a + 4 / 10 * b)
            (Option.map round2 (overallMeanOf (groupOf dfB rowB.trainer)))
            (Option.map round2 (lateMeanOf (groupOf dfB rowB.trainer)))) :=
  ⟨dfB_eval,
    trainer_score_eq_weighted_rounded_means dfB_eval rowB
      (List.mem_singleton_self rowB)⟩

/-- Witness for claim C3 at the concrete dataset `dfB`. -/
theorem ranked_trainers_meet_threshold_witness :
    compute_trainer_scores dfB = Except.ok [rowB] ∧
      MIN_RESPONSES ≤ (groupOf dfB rowB.trainer).length ∧
      rowB.n_responses = (groupOf dfB rowB.trainer).length :=
  ⟨dfB_eval,
    ranked_trainers_meet_threshold dfB_eval rowB
      (List.mem_singleton_self rowB)⟩

/-- Witness for claim C4 at the concrete dataset `dfB`. -/
theorem ranking_sorted_descending_witness :
    ([rowB] : List TrainerRow).Pairwise rowScoreDescLE :=
  ranking_sorted_descending dfB_eval

/-- A dataset whose only trainer has a single completed response, so no
group reaches the minimum-response threshold. -/
def dfSmall : List Record :=
  [{ row_id := "ROW-001", trainer := "A", date := none,
     ratings := [], quoteCells := [] }]

/-- Witness for claim C7 at the concrete dataset `dfSmall`. -/
theorem no_qualifying_trainer_is_fatal_witness :
    compute_trainer_scores dfSmall = Except.error NO_TRAINERS_MSG :=
  no_qualifying_trainer_is_fatal (by decide)

/-- A one-record group whose rating column 0 has no observation while
column 1 does. -/
def gC8 : List Record :=
  [{ row_id := "ROW-001", trainer := "A", date := none,
     ratings := [none, some 5], quoteCells := [] }]

/-- Witness for claim C8 at the concrete group `gC8`: column 0 has no
observation and is excluded from the mean of per-column means. -/
theorem unobserved_column_excluded_from_mean_witness :
    meanOfColMeansOn [0, 1] gC8 =
      meanOfColMeansOn (([0, 1] : List ℕ).erase 0) gC8 :=
  unobserved_column_excluded_from_mean [0, 1] (by decide)

instance : IsTotal Quote quoteLenDescLE :=
  ⟨fun a b => le_total b.length a.length⟩

instance : IsTrans Quote quoteLenDescLE :=
  ⟨fun _ _ _ hab hbc => le_trans hbc hab⟩

/-- Claim C5: for every trainer and requested count, the extraction
result contains only quotes whose trimmed text length exceeds 20 (the
recorded `length` is the trimmed length, and the embedded quote text has
exactly that length), is sorted by descending length, has at most
`n_quotes` elements, and is the empty list — extraction is a total
function — whenever the trainer has no qualifying text. -/
theorem extract_best_quotes_spec (df : List Record) (trainer : String)
    (n_quotes : ℕ) :
    (∀ q ∈ extract_best_quotes df trainer n_quotes,
        20 < q.length ∧ q.quote.length = q.length) ∧
      (extract_best_quotes df trainer n_quotes).Pairwise quoteLenDescLE ∧
      (extract_best_quotes df trainer n_quotes).length ≤ n_quotes ∧
      (quoteCandidates df trainer = [] →
        extract_best_quotes df trainer n_quotes = []) := by
  refine ⟨?_, ?_, ?_, ?_⟩
  · intro q hq
    have hq' : q ∈ quoteCandidates df trainer := by
      have hmem := List.mem_of_mem_take hq
      rwa [List.mem_insertionSort] at hmem
    rw [quoteCandidates, List.mem_flatMap] at hq'
    obtain ⟨r, -, hq2⟩ := hq'
    rw [List.mem_filterMap] at hq2
    obtain ⟨⟨col, cell⟩, -, hcand⟩ := hq2
    cases cell with
    | null => exact absurd hcand (by simp [candidateOf])
    | num x => exact absurd hcand (by simp [candidateOf])
    | str s =>
        simp only [candidateOf] at hcand
        split at hcand
        · rw [Option.some.injEq] at hcand
          subst hcand
          exact ⟨by assumption, by simp [replaceNewlines]⟩
        · exact absurd hcand (by simp)
  · exact List.Pairwise.sublist (List.take_sublist _ _)
      (List.sorted_insertionSort quoteLenDescLE _)
  · exact List.length_take_le _ _
  · intro hnil
    rw [extract_best_quotes, hnil]
    simp [List.insertionSort]

/-- A record with no qualifying free text: a missing cell, a numeric
cell, and a string cell whose stripped length is at most 20. -/
def dfQE : List Record :=
  [{ row_id := "ROW-001", trainer := "T", date := none, ratings := [],
     quoteCells := [Cell.null, Cell.num 3, Cell.str ("short ").toList] }]

/-- Witness for claim C5 at the concrete dataset `dfQE`: a trainer with
no qualifying text yields the empty list. -/
theorem extract_best_quotes_spec_witness :
    quoteCandidates dfQE "T" = [] ∧
      extract_best_quotes dfQE "T" 2 = [] :=
  ⟨by decide, (extract_best_quotes_spec dfQE "T" 2).2.2.2 (by decide)⟩

/-- Replace every non-string quote cell (missing or numeric) by the
missing marker, leaving string cells untouched. -/
def scrubCell : Cell → Cell
  | Cell.str s => Cell.str s
  | _ => Cell.null

/-- Scrub every non-string quote cell of a record. -/
def scrubNonStringCells (r : Record) : Record :=
  { r with quoteCells := r.quoteCells.map scrubCell }

/-- Claim C9: evidence extraction is total (it is a plain function to a
list) and skips every missing or non-string cell: replacing all
non-string quote cells by the missing marker changes nothing, for every
trainer, requested count and record set. -/
theorem extraction_ignores_nonstring_cells (df : List Record)
    (trainer : String) (n_quotes : ℕ) :
    extract_best_quotes (df.map scrubNonStringCells) trainer n_quotes =
      extract_best_quotes df trainer n_quotes := by
  have hgroup : groupOf (df.map scrubNonStringCells) trainer =
      (groupOf df trainer).map scrubNonStringCells := by
    rw [groupOf, groupOf, List.filter_map]
    congr 1
  have hfun : ∀ r : Record,
      (QUOTE_COLS.zip (scrubNonStringCells r).quoteCells).filterMap
          (candidateOf (scrubNonStringCells r)) =
        (QUOTE_COLS.zip r.quoteCells).filterMap (candidateOf r) := by
    intro r
    have hcells : (scrubNonStringCells r).quoteCells =
        r.quoteCells.map scrubCell := rfl
    rw [hcells, List.zip_map_right, List.filterMap_map]
    apply List.filterMap_congr
    intro p _
    rcases p with ⟨col, cell⟩
    cases cell <;> rfl
  have hcand : quoteCandidates (df.map scrubNonStringCells) trainer =
      quoteCandidates df trainer := by
    rw [quoteCandidates, quoteCandidates, hgroup, List.flatMap_map]
    exact congrArg _ (funext hfun)
  rw [extract_best_quotes, extract_best_quotes, hcand]

/-- Claim C6: the outreach draft body embeds the selected quote between
the fixed template prefix and suffix — verbatim when its length is at
most 200 characters, and truncated with the `"..."` marker appended when
it is longer. -/
theorem outreach_body_embeds_quote (t : RankedResult) :
    ((selectedQuote t).length ≤ 200 →
      (generate_outreach_draft t).body =
        bodyPre t ++ selectedQuote t ++ bodyPost) ∧
    (200 < (selectedQuote t).length →
      (generate_outreach_draft t).body =
        bodyPre t ++ ((selectedQuote t).take 197 ++ ellipsisMarker) ++
          bodyPost) := by
  constructor
  · intro h
    simp only [generate_outreach_draft, truncatedQuote]
    rw [if_neg (by omega)]
  · intro h
    simp only [generate_outreach_draft, truncatedQuote]
    rw [if_pos h]

/-- A ranked-result input whose selected quote is short (38 characters,
at most 200). -/
def rrShort : RankedResult :=
  { trainer_name := ("jane.doe@example.com").toList, n_responses := 4,
    trainer_score := 81 / 10, overall_avg := 15 / 2, improvement := 3,
    evidence_quotes :=
      [{ row_id := "ROW-001",
         quote := ("A genuinely wonderful training session").toList }],
    case_study_angle := [] }

/-- A ranked-result input whose selected quote has 201 characters. -/
def rrLong : RankedResult :=
  { trainer_name := ("john.smith@example.com").toList, n_responses := 5,
    trainer_score := 9, overall_avg := 9, improvement := 0,
    evidence_quotes :=
      [{ row_id := "ROW-002", quote := List.replicate 201 'a' }],
    case_study_angle := [] }

set_option maxRecDepth 8000 in
/-- Witness for claim C6 at the concrete inputs `rrShort` (verbatim
branch) and `rrLong` (truncation branch). -/
theorem outreach_body_embeds_quote_witness :
    ((selectedQuote rrShort).length ≤ 200 ∧
      (generate_outreach_draft rrShort).body =
        bodyPre rrShort ++ selectedQuote rrShort ++ bodyPost) ∧
    (200 < (selectedQuote rrLong).length ∧
      (generate_outreach_draft rrLong).body =
        bodyPre rrLong ++ ((selectedQuote rrLong).take 197 ++
          ellipsisMarker) ++ bodyPost) :=
  ⟨⟨by decide, (outreach_body_embeds_quote rrShort).1 (by decide)⟩,
   ⟨by decide, (outreach_body_embeds_quote rrLong).2 (by decide)⟩⟩

/-- Claim C10: when the selected quote exceeds 200 characters, the
embedded result is exactly its first 197 characters followed by the
three-character `"..."` marker, so the truncated quote has exactly 200
characters, and it is what the body embeds. -/
theorem truncation_keeps_197_plus_marker (t : RankedResult)
    (h : 200 < (selectedQuote t).length) :
    truncatedQuote t = (selectedQuote t).take 197 ++ ellipsisMarker ∧
      (truncatedQuote t).length = 200 ∧
      (generate_outreach_draft t).body =
        bodyPre t ++ ((selectedQuote t).take 197 ++ ellipsisMarker) ++
          bodyPost := by
  have htr : truncatedQuote t =
      (selectedQuote t).take 197 ++ ellipsisMarker := by
    simp only [truncatedQuote]
    rw [if_pos h]
  refine ⟨htr, ?_, ?_⟩
  · rw [htr, List.length_append, List.length_take,
      min_eq_left (by omega : 197 ≤ (selectedQuote t).length)]
    rfl
  · simp only [generate_outreach_draft, truncatedQuote]
    rw [if_pos h]

set_option maxRecDepth 8000 in
/-- Witness for claim C10 at the concrete input `rrLong`. -/
theorem truncation_keeps_197_plus_marker_witness :
    200 < (selectedQuote rrLong).length ∧
      (truncatedQuote rrLong).length = 200 :=
  ⟨by decide, (truncation_keeps_197_plus_marker rrLong (by decide)).2.1⟩
